import Mathlib

/-!
Shallow embedding of the variant-aware project-creation core of
`src/components/modals/CreateProjectModal.tsx` (font-bloom-garden).

The embedding covers:
* the two zod schemas `personalProjectSchema` and `externalReferenceSchema`
  (validation returns the list of field-error messages; empty list = valid);
* the description serializers (the inline description-building blocks of
  `onSubmitPersonal` and `onSubmitExternal`);
* the submission orchestrators `onSubmitPersonal` and `onSubmitExternal`,
  modelled as pure functions from a gateway oracle (does `addProject`
  succeed, is there a session, does the i-th link insert succeed) to the
  trace of gateway calls, the list of toast notifications, and the terminal
  outcome of the run;
* `submitPersonal` / `submitExternal`, the full pipeline in which the form
  resolver runs the schema first and the submit handler only runs on a
  fully valid input (react-hook-form `handleSubmit` + `zodResolver`).

JavaScript details carried over faithfully: string truthiness (`if (x)` on a
string is "non-empty"), number truthiness (`0` is falsy), `String.split(",")`
keeping empty tokens (they are skipped inside the loop by `if (url)`), and
zod `min(1)` counting every character including whitespace.
-/

namespace FontBloom

/-- A toast notification shown to the user (`toast.success` / `toast.error`
from the `sonner` library). -/
inductive ToastEvent where
  | success (msg : String)
  | error (msg : String)
deriving DecidableEq, Repr

/-- One call issued to an external gateway during a submission:
`createProject` is `addProject` from the font context, `getSession` is
`supabase.auth.getSession()`, and `createLink` is the insert into the
`external_references` table with columns `url`, `project_name`, `user_id`. -/
inductive GatewayCall where
  | createProject (name description : String)
  | getSession
  | createLink (url projectName userId : String)
deriving DecidableEq, Repr

/-- Terminal outcome of a submission run, classifying the return path the
code takes: the success-toast path, the login-required early return, or the
catch block. `PartiallyCreated` is the outcome the design documentation
describes for mixed link-creation results; the inductive carries it so that
statements can compare the code's behaviour against it. -/
inductive Outcome where
  | Created
  | PartiallyCreated (failedUrls : List String)
  | Unauthorized
  | Failed
deriving DecidableEq, Repr

/-- Form values for the personal-project tab (`PersonalProjectFormValues`).
The month picker yields a `Date`; only its month component is ever read
(via `format(month, 'MMMM')`), so it is embedded as the month number 1–12.
Optional text fields are `Option String` (absent or a string). -/
structure PersonalProjectFormValues where
  name : String
  month : Option Nat := none
  year : Option Int := none
  duration : Option String := none
  field : String
  coAuthors : Option String := none
  externalLinks : Option String := none
deriving DecidableEq, Repr

/-- Form values for the external-reference tab (`ExternalReferenceFormValues`):
same shape but `authors` instead of `coAuthors`, and `externalLinks` is a
required string. -/
structure ExternalReferenceFormValues where
  name : String
  month : Option Nat := none
  year : Option Int := none
  duration : Option String := none
  field : String
  authors : Option String := none
  externalLinks : String
deriving DecidableEq, Repr

/-- JavaScript `String.prototype.trim()`: remove leading and trailing
whitespace. Embedded structurally over the character list so that concrete
runs reduce inside the kernel. -/
def jsTrim (s : String) : String :=
  ⟨((s.data.dropWhile Char.isWhitespace).reverse.dropWhile Char.isWhitespace).reverse⟩

/-- Worker for `jsSplitOnComma`: accumulates the current token (reversed)
and emits it at every comma and at the end of the input. -/
def jsSplitOnCommaAux : List Char → List Char → List String
  | [], acc => [⟨acc.reverse⟩]
  | c :: rest, acc =>
    if c = ',' then ⟨acc.reverse⟩ :: jsSplitOnCommaAux rest []
    else jsSplitOnCommaAux rest (c :: acc)

/-- JavaScript `s.split(",")`: the comma-separated tokens of `s`, keeping
empty tokens (so `"a,".split(",")` is `["a", ""]` and `"".split(",")` is
`[""]`). -/
def jsSplitOnComma (s : String) : List String := jsSplitOnCommaAux s.data []

/-- JavaScript number-to-string coercion for the integer years handled
here, as used by the template literal that renders the year. -/
def jsNumberToString (n : Int) : String :=
  if n < 0 then "-" ++ ⟨Nat.toDigits 10 (-n).toNat⟩ else ⟨Nat.toDigits 10 n.toNat⟩

/-- Errors contributed by the shared `year` constraint
`z.number().min(1900).max(2100).optional()`: checked only when a year is
present, with zod's default range messages. -/
def yearErrors : Option Int → List String
  | none => []
  | some y =>
    (if 1900 ≤ y then [] else ["Number must be greater than or equal to 1900"]) ++
    (if y ≤ 2100 then [] else ["Number must be less than or equal to 2100"])

/-- `personalProjectSchema`: the zod schema for the personal tab. Returns
the list of field-error messages; the input is valid iff the list is empty.
`z.string().min(1)` checks the character count of the raw string — it does
not trim, so whitespace counts toward the minimum. -/
def personalProjectSchema (v : PersonalProjectFormValues) : List String :=
  (if 1 ≤ v.name.length then [] else ["Project name is required"]) ++
  yearErrors v.year ++
  (if 1 ≤ v.field.length then [] else ["Field is required"])

/-- `externalReferenceSchema`: the zod schema for the external tab; like the
personal schema plus `externalLinks: z.string().min(1)`. -/
def externalReferenceSchema (v : ExternalReferenceFormValues) : List String :=
  (if 1 ≤ v.name.length then [] else ["Reference name is required"]) ++
  yearErrors v.year ++
  (if 1 ≤ v.field.length then [] else ["Field is required"]) ++
  (if 1 ≤ v.externalLinks.length then [] else ["At least one external link is required"])

/-- `format(date, 'MMMM')` from date-fns: the full English month name of the
date's month component. -/
def formatMMMM : Nat → String
  | 1 => "January"
  | 2 => "February"
  | 3 => "March"
  | 4 => "April"
  | 5 => "May"
  | 6 => "June"
  | 7 => "July"
  | 8 => "August"
  | 9 => "September"
  | 10 => "October"
  | 11 => "November"
  | 12 => "December"
  | _ => ""

/-- JavaScript truthiness of an optional string: `undefined` and `""` are
falsy, every non-empty string is truthy. -/
def optStrTruthy : Option String → Bool
  | none => false
  | some s => !s.data.isEmpty

/-- The description-building block of `onSubmitPersonal` (lines 105–131):
starts empty and appends one line per truthy field, in source order. -/
def personalDescription (values : PersonalProjectFormValues) : String :=
  let description := ""
  let description :=
    if !values.field.data.isEmpty then description ++ "Field: " ++ values.field ++ "\n"
    else description
  let description :=
    match values.month with
    | some m =>
      let description := description ++ "Date: " ++ formatMMMM m
      let description :=
        match values.year with
        | some year => if year != 0 then description ++ " " ++ jsNumberToString year else description
        | none => description
      description ++ "\n"
    | none =>
      match values.year with
      | some year =>
        if year != 0 then description ++ "Year: " ++ jsNumberToString year ++ "\n" else description
      | none => description
  let description :=
    if optStrTruthy values.duration then description ++ "Duration: " ++ values.duration.getD "" ++ "\n"
    else description
  let description :=
    if optStrTruthy values.coAuthors then description ++ "Co-authors: " ++ values.coAuthors.getD "" ++ "\n"
    else description
  let description :=
    if optStrTruthy values.externalLinks then
      description ++ "External Links: " ++ values.externalLinks.getD "" ++ "\n"
    else description
  description

/-- The description-building block of `onSubmitExternal` (lines 150–172):
starts with the line "External Reference", then appends one line per truthy
field in source order. The raw `externalLinks` text is never rendered into
the description on this path. -/
def externalDescription (values : ExternalReferenceFormValues) : String :=
  let description := "External Reference\n"
  let description :=
    if !values.field.data.isEmpty then description ++ "Field: " ++ values.field ++ "\n"
    else description
  let description :=
    match values.month with
    | some m =>
      let description := description ++ "Date: " ++ formatMMMM m
      let description :=
        match values.year with
        | some year => if year != 0 then description ++ " " ++ jsNumberToString year else description
        | none => description
      description ++ "\n"
    | none =>
      match values.year with
      | some year =>
        if year != 0 then description ++ "Year: " ++ jsNumberToString year ++ "\n" else description
      | none => description
  let description :=
    if optStrTruthy values.duration then description ++ "Duration: " ++ values.duration.getD "" ++ "\n"
    else description
  let description :=
    if optStrTruthy values.authors then description ++ "Authors: " ++ values.authors.getD "" ++ "\n"
    else description
  description

/-- Oracle describing how the external gateways answer during one run:
whether `addProject` resolves (or rejects), the session's user id if a
session exists, and whether the i-th `external_references` insert (0-based,
counting only issued inserts) returns without error. -/
structure Gateways where
  createProjectOk : Bool
  session : Option String
  createLinkOk : Nat → Bool

/-- Result of one submission run: the ordered trace of gateway calls, the
toasts shown, and the terminal outcome (which return path the run took). -/
structure RunResult where
  calls : List GatewayCall
  toasts : List ToastEvent
  outcome : Outcome
deriving DecidableEq, Repr

/-- The per-URL loop of `onSubmitExternal` (lines 192–207): for each token,
skip it when empty (`if (url)`), otherwise issue the insert; a failing
insert logs and toasts an error but the loop continues with the remaining
tokens. `idx` counts the inserts issued so far, indexing into the oracle. -/
def insertLinks (gw : Gateways) (projectName userId : String) :
    List String → Nat → List GatewayCall × List ToastEvent
  | [], _ => ([], [])
  | url :: rest, idx =>
    if !url.data.isEmpty then
      let toastsHere :=
        if gw.createLinkOk idx then []
        else [ToastEvent.error "Failed to add external reference"]
      let res := insertLinks gw projectName userId rest (idx + 1)
      (GatewayCall.createLink url projectName userId :: res.1, toastsHere ++ res.2)
    else
      insertLinks gw projectName userId rest idx

/-- `onSubmitPersonal` (lines 102–145): build the description, call
`addProject(name, description.trim())`; on resolution toast success, on
rejection the catch block toasts failure. No other gateway is touched. -/
def onSubmitPersonal (gw : Gateways) (values : PersonalProjectFormValues) : RunResult :=
  let description := personalDescription values
  if gw.createProjectOk then
    { calls := [GatewayCall.createProject values.name (jsTrim description)],
      toasts := [ToastEvent.success "Project created successfully!"],
      outcome := Outcome.Created }
  else
    { calls := [GatewayCall.createProject values.name (jsTrim description)],
      toasts := [ToastEvent.error "Failed to create project"],
      outcome := Outcome.Failed }

/-- `onSubmitExternal` (lines 147–216): create the project first; if that
rejects, the catch block toasts failure and nothing else runs. Then read the
session; without one, toast the login error and return. Otherwise split
`externalLinks` on commas, trim each token, and run the insert loop; the run
always ends on the success toast regardless of individual insert errors. -/
def onSubmitExternal (gw : Gateways) (values : ExternalReferenceFormValues) : RunResult :=
  let description := externalDescription values
  let projectCall := GatewayCall.createProject values.name (jsTrim description)
  if gw.createProjectOk then
    match gw.session with
    | none =>
      { calls := [projectCall, GatewayCall.getSession],
        toasts := [ToastEvent.error "You must be logged in to add external references"],
        outcome := Outcome.Unauthorized }
    | some userId =>
      let links := (jsSplitOnComma values.externalLinks).map jsTrim
      let res := insertLinks gw values.name userId links 0
      { calls := projectCall :: GatewayCall.getSession :: res.1,
        toasts := res.2 ++ [ToastEvent.success "External reference created successfully!"],
        outcome := Outcome.Created }
  else
    { calls := [projectCall],
      toasts := [ToastEvent.error "Failed to create external reference"],
      outcome := Outcome.Failed }

/-- Result of a full submission attempt, validation included: the field
errors (empty when the resolver passed), then the run's calls, toasts and
outcome (`none` when validation blocked the submit handler). -/
structure SubmissionResult where
  fieldErrors : List String
  calls : List GatewayCall
  toasts : List ToastEvent
  outcome : Option Outcome
deriving DecidableEq, Repr

/-- The personal form pipeline: `handleSubmit(onSubmitPersonal)` with the
zod resolver — the submit handler runs only when the schema reports no
errors; otherwise the errors surface on the form and nothing else happens. -/
def submitPersonal (gw : Gateways) (values : PersonalProjectFormValues) : SubmissionResult :=
  let errors := personalProjectSchema values
  if errors.isEmpty then
    let r := onSubmitPersonal gw values
    { fieldErrors := [], calls := r.calls, toasts := r.toasts, outcome := some r.outcome }
  else
    { fieldErrors := errors, calls := [], toasts := [], outcome := none }

/-- The external form pipeline: `handleSubmit(onSubmitExternal)` with the
zod resolver. -/
def submitExternal (gw : Gateways) (values : ExternalReferenceFormValues) : SubmissionResult :=
  let errors := externalReferenceSchema values
  if errors.isEmpty then
    let r := onSubmitExternal gw values
    { fieldErrors := [], calls := r.calls, toasts := r.toasts, outcome := some r.outcome }
  else
    { fieldErrors := errors, calls := [], toasts := [], outcome := none }

/-- The candidate-URL sequence of a raw `externalLinks` text: split on `,`,
trim each token, keep the non-empty ones — exactly the tokens for which the
loop body of `onSubmitExternal` issues an insert, in order. -/
def candidateUrls (externalLinks : String) : List String :=
  ((jsSplitOnComma externalLinks).map jsTrim).filter (fun u => !u.data.isEmpty)

/-- Whether a gateway call is a `createLink` insert. -/
def isCreateLink : GatewayCall → Bool
  | .createLink _ _ _ => true
  | _ => false

/-- Whether a gateway call is a `createProject` write. -/
def isCreateProject : GatewayCall → Bool
  | .createProject _ _ => true
  | _ => false

/-- The `createLink` calls of a trace, in order. -/
def createLinkCalls (calls : List GatewayCall) : List GatewayCall :=
  calls.filter isCreateLink

/-- Gateway oracle on which every operation succeeds. -/
def gwAllOk : Gateways := ⟨true, some "user-1", fun _ => true⟩

/-- Gateway oracle on which only the second link insert (index 1) fails. -/
def gwSecondLinkFails : Gateways := ⟨true, some "user-1", fun i => i != 1⟩

/-- Gateway oracle on which project creation rejects. -/
def gwProjectFails : Gateways := ⟨false, some "user-1", fun _ => true⟩

/-- Gateway oracle with no authenticated session. -/
def gwNoSession : Gateways := ⟨true, none, fun _ => true⟩

/-- External submission with three candidate URLs. -/
def vABC : ExternalReferenceFormValues :=
  { name := "Ref", field := "Typography",
    externalLinks := "https://a.com,https://b.com,https://c.com" }

/-- External submission whose raw link text contains a blank token and a
trailing comma. -/
def vAB : ExternalReferenceFormValues :=
  { name := "Ref", field := "Typography",
    externalLinks := "https://a.com, , https://b.com," }

/-- The External-variant input of the serializer example: field Typography,
month March, year 2023, duration "2 weeks", authors "A, B". -/
def vTypography : ExternalReferenceFormValues :=
  { name := "Ref", month := some 3, year := some 2023, duration := some "2 weeks",
    field := "Typography", authors := some "A, B", externalLinks := "https://a.com" }

/-- The Personal-variant end-to-end example: name Poster, field Print,
year 2022, nothing else. -/
def vPoster : PersonalProjectFormValues :=
  { name := "Poster", field := "Print", year := some 2022 }

/-- The calls component of the insert loop: one `createLink` per non-empty
token, in order, independent of the index and of which inserts fail. -/
theorem insertLinks_calls_eq (gw : Gateways) (pn uid : String) (links : List String) :
    ∀ idx : Nat,
      (insertLinks gw pn uid links idx).1 =
        (links.filter (fun u => !u.data.isEmpty)).map
          (fun url => GatewayCall.createLink url pn uid) := by
  induction links with
  | nil => intro idx; rfl
  | cons url rest ih =>
    intro idx
    by_cases h : url.data.isEmpty
    · simp [insertLinks, h, ih]
    · simp [insertLinks, h, ih]

/-- Filtering a pure `createLink` trace for `createLink` calls keeps it
unchanged. -/
theorem filter_isCreateLink_map (pn uid : String) (l : List String) :
    (l.map (fun url => GatewayCall.createLink url pn uid)).filter isCreateLink =
      l.map (fun url => GatewayCall.createLink url pn uid) := by
  induction l with
  | nil => rfl
  | cons a t ih => simp [isCreateLink, List.filter_cons, ih]

/-- On the authorized happy path, the full call trace is: the project write,
the session read, then one `createLink` per candidate URL in order. -/
theorem onSubmitExternal_calls_ok (gw : Gateways) (uid : String)
    (v : ExternalReferenceFormValues)
    (hp : gw.createProjectOk = true) (hs : gw.session = some uid) :
    (onSubmitExternal gw v).calls =
      GatewayCall.createProject v.name (jsTrim (externalDescription v)) ::
        GatewayCall.getSession ::
          (candidateUrls v.externalLinks).map
            (fun url => GatewayCall.createLink url v.name uid) := by
  unfold onSubmitExternal
  simp [hp, hs, insertLinks_calls_eq, candidateUrls]

/-- The `createLink` calls issued on the authorized happy path are exactly
the candidate URLs, in order. -/
theorem external_createLink_trace (gw : Gateways) (uid : String)
    (v : ExternalReferenceFormValues)
    (hp : gw.createProjectOk = true) (hs : gw.session = some uid) :
    createLinkCalls (onSubmitExternal gw v).calls =
      (candidateUrls v.externalLinks).map
        (fun url => GatewayCall.createLink url v.name uid) := by
  rw [createLinkCalls, onSubmitExternal_calls_ok gw uid v hp hs]
  simp [List.filter_cons, isCreateLink, filter_isCreateLink_map]

/-- Every branch of the external submit handler issues the project write
first. -/
theorem onSubmitExternal_head (gw : Gateways) (v : ExternalReferenceFormValues) :
    (onSubmitExternal gw v).calls.head? =
      some (GatewayCall.createProject v.name (jsTrim (externalDescription v))) := by
  unfold onSubmitExternal
  by_cases hc : gw.createProjectOk = true
  · cases hss : gw.session <;> simp [hc, hss]
  · simp [hc]

/-- C3: on every External-variant submission, if `createProject` fails the
run terminates in `Failed` having issued only the project-creation call —
no session lookup and no `createLink` call occurs. -/
theorem C3_project_failure_stops_run (gw : Gateways) (v : ExternalReferenceFormValues)
    (h : gw.createProjectOk = false) :
    onSubmitExternal gw v =
      { calls := [GatewayCall.createProject v.name (jsTrim (externalDescription v))],
        toasts := [ToastEvent.error "Failed to create external reference"],
        outcome := Outcome.Failed } := by
  unfold onSubmitExternal
  simp [h]

/-- Witness for C3 at a concrete failing gateway and concrete input. -/
theorem C3_project_failure_stops_run_witness :
    onSubmitExternal gwProjectFails vABC =
      { calls := [GatewayCall.createProject vABC.name (jsTrim (externalDescription vABC))],
        toasts := [ToastEvent.error "Failed to create external reference"],
        outcome := Outcome.Failed } :=
  C3_project_failure_stops_run gwProjectFails vABC rfl

/-- C4: when the project write succeeds but no session is resolvable, the
run stops with outcome `Unauthorized` (an outcome distinct from `Failed`,
the project-creation error) and a dedicated login-required toast; zero
`createLink` calls are issued, and the trace shows the already-issued
project write with no subsequent call undoing it (the gateway surface has
no delete operation — the record stays). -/
theorem C4_unauthorized_no_link_writes (gw : Gateways) (v : ExternalReferenceFormValues)
    (hp : gw.createProjectOk = true) (hs : gw.session = none) :
    onSubmitExternal gw v =
      { calls := [GatewayCall.createProject v.name (jsTrim (externalDescription v)),
                  GatewayCall.getSession],
        toasts := [ToastEvent.error "You must be logged in to add external references"],
        outcome := Outcome.Unauthorized } ∧
    (Outcome.Unauthorized == Outcome.Failed) = false := by
  refine ⟨?_, rfl⟩
  unfold onSubmitExternal
  simp [hp, hs]

/-- Witness for C4 at a concrete sessionless gateway and concrete input. -/
theorem C4_unauthorized_no_link_writes_witness :
    onSubmitExternal gwNoSession vABC =
      { calls := [GatewayCall.createProject vABC.name (jsTrim (externalDescription vABC)),
                  GatewayCall.getSession],
        toasts := [ToastEvent.error "You must be logged in to add external references"],
        outcome := Outcome.Unauthorized } ∧
    (Outcome.Unauthorized == Outcome.Failed) = false :=
  C4_unauthorized_no_link_writes gwNoSession vABC rfl rfl

/-- C5: the external description serializer is a pure function of the
validated input (a Lean `def`, so identical input yields an identical
string by definition); it never reads `externalLinks`, so no links line
appears for the External variant; and on the example input — field
Typography, month March, year 2023, duration "2 weeks", authors "A, B" —
the trimmed output is exactly the expected five-line string. -/
theorem C5_serializer_exact_output :
    (∀ (v : ExternalReferenceFormValues) (l : String),
      externalDescription { v with externalLinks := l } = externalDescription v) ∧
    jsTrim (externalDescription vTypography) =
      "External Reference\nField: Typography\nDate: March 2023\nDuration: 2 weeks\nAuthors: A, B" := by
  constructor
  · intro v l
    cases v
    rfl
  · decide

/-- C7: a valid Personal submission with name Poster, field Print, year
2022 and no other optional field issues exactly one `createProject` call
with description "Field: Print\nYear: 2022" and ends in `Created`, whatever
the link gateway oracle would have answered. -/
theorem C7_personal_end_to_end (sess : Option String) (linkOk : Nat → Bool) :
    submitPersonal ⟨true, sess, linkOk⟩ vPoster =
      { fieldErrors := [],
        calls := [GatewayCall.createProject "Poster" "Field: Print\nYear: 2022"],
        toasts := [ToastEvent.success "Project created successfully!"],
        outcome := some Outcome.Created } := rfl

/-- C9: a Personal submission touches no gateway other than `createProject`:
every call in its trace is a `createProject` write, there are no
`createLink` calls (nor any session read), and on a valid input the trace is
exactly the single project write. -/
theorem C9_personal_only_project_gateway (gw : Gateways) (v : PersonalProjectFormValues) :
    (submitPersonal gw v).calls.all isCreateProject = true ∧
    createLinkCalls (submitPersonal gw v).calls = [] ∧
    ((personalProjectSchema v).isEmpty = true →
      (submitPersonal gw v).calls =
        [GatewayCall.createProject v.name (jsTrim (personalDescription v))]) := by
  unfold submitPersonal onSubmitPersonal
  by_cases he : (personalProjectSchema v).isEmpty = true
  · by_cases hc : gw.createProjectOk = true <;>
      simp [he, hc, createLinkCalls, isCreateProject, isCreateLink, List.filter_cons]
  · simp [he, createLinkCalls]

/-- Witness for C9 at a concrete gateway and the valid Poster input. -/
theorem C9_personal_only_project_gateway_witness :
    (submitPersonal gwAllOk vPoster).calls.all isCreateProject = true ∧
    (submitPersonal gwAllOk vPoster).calls =
      [GatewayCall.createProject vPoster.name (jsTrim (personalDescription vPoster))] :=
  ⟨(C9_personal_only_project_gateway gwAllOk vPoster).1,
   (C9_personal_only_project_gateway gwAllOk vPoster).2.2 rfl⟩

/-- A list known to be different from `[]` has `isEmpty = false`. -/
theorem isEmpty_false_of_ne_nil {α : Type} {l : List α} (h : l ≠ []) : l.isEmpty = false := by
  cases l with
  | nil => exact absurd rfl h
  | cons a t => rfl

/-- C1 counterexample: with three candidate URLs where the second insert
fails and the others succeed, exactly three `createLink` calls are issued —
but the terminal outcome is `Created`, not `PartiallyCreated` listing the
failed URL: the code only toasts a per-link error message (which does not
name the URL) and then reports overall success. -/
theorem C1_counterexample :
    (createLinkCalls (onSubmitExternal gwSecondLinkFails vABC).calls).length = 3 ∧
    (onSubmitExternal gwSecondLinkFails vABC).outcome = Outcome.Created ∧
    ((onSubmitExternal gwSecondLinkFails vABC).outcome ==
        Outcome.PartiallyCreated ["https://b.com"]) = false ∧
    (onSubmitExternal gwSecondLinkFails vABC).toasts =
      [ToastEvent.error "Failed to add external reference",
       ToastEvent.success "External reference created successfully!"] := by
  decide

/-- C1 amended: on the authorized path one `createLink` call is issued per
candidate URL, but the run always terminates with outcome `Created` and the
success toast, whatever subset of the inserts fails — link failures only
emit per-link error toasts and are never aggregated into a
`PartiallyCreated(failedUrls)` outcome distinguishing the run from full
success. -/
theorem C1_amended_partial_failure_reports_created (gw : Gateways) (uid : String)
    (v : ExternalReferenceFormValues)
    (hp : gw.createProjectOk = true) (hs : gw.session = some uid) :
    (onSubmitExternal gw v).outcome = Outcome.Created ∧
    (onSubmitExternal gw v).toasts.getLast? =
      some (ToastEvent.success "External reference created successfully!") ∧
    (createLinkCalls (onSubmitExternal gw v).calls).length =
      (candidateUrls v.externalLinks).length := by
  refine ⟨?_, ?_, ?_⟩
  · unfold onSubmitExternal
    simp [hp, hs]
  · unfold onSubmitExternal
    simp [hp, hs, List.getLast?_concat]
  · rw [external_createLink_trace gw uid v hp hs, List.length_map]

/-- Witness for the amended C1 at the three-URL scenario in which the
second insert fails. -/
theorem C1_amended_partial_failure_reports_created_witness :
    (onSubmitExternal gwSecondLinkFails vABC).outcome = Outcome.Created ∧
    (onSubmitExternal gwSecondLinkFails vABC).toasts.getLast? =
      some (ToastEvent.success "External reference created successfully!") ∧
    (createLinkCalls (onSubmitExternal gwSecondLinkFails vABC).calls).length =
      (candidateUrls vABC.externalLinks).length :=
  C1_amended_partial_failure_reports_created gwSecondLinkFails "user-1" vABC rfl rfl

/-- C2 counterexample: a whitespace-only `externalLinks` value passes the
external schema (zod `min(1)` counts the space character), and the
submission proceeds to the writes: the project is created and the session
read (the lone token trims to empty, so no insert follows). -/
theorem C2_counterexample :
    externalReferenceSchema { name := "n", field := "f", externalLinks := " " } = [] ∧
    (submitExternal gwAllOk { name := "n", field := "f", externalLinks := " " }).calls =
      [GatewayCall.createProject "n" "External Reference\nField: f",
       GatewayCall.getSession] := by
  decide

/-- C2 amended: the External variant rejects an empty `externalLinks` value
before any write (no gateway call, no toast), but a whitespace-only value
passes validation since the minimum-length check counts whitespace; the
Personal schema places no constraint on `externalLinks` at all. -/
theorem C2_amended_links_validation (gw : Gateways)
    (ve : ExternalReferenceFormValues) (vp : PersonalProjectFormValues) (l : Option String)
    (h : ve.externalLinks = "") :
    (externalReferenceSchema ve).isEmpty = false ∧
    (submitExternal gw ve).calls = [] ∧
    (submitExternal gw ve).toasts = [] ∧
    personalProjectSchema { vp with externalLinks := l } = personalProjectSchema vp := by
  have hl : ve.externalLinks.length = 0 := by rw [h]; rfl
  have hne : externalReferenceSchema ve ≠ [] := by
    simp [externalReferenceSchema, hl]
  have h1 : (externalReferenceSchema ve).isEmpty = false := isEmpty_false_of_ne_nil hne
  refine ⟨h1, ?_, ?_, ?_⟩
  · unfold submitExternal
    simp [h1]
  · unfold submitExternal
    simp [h1]
  · cases vp
    rfl

/-- Witness for the amended C2 at concrete inputs. -/
theorem C2_amended_links_validation_witness :
    (externalReferenceSchema { name := "n", field := "f", externalLinks := "" }).isEmpty = false ∧
    (submitExternal gwAllOk { name := "n", field := "f", externalLinks := "" }).calls = [] ∧
    (submitExternal gwAllOk { name := "n", field := "f", externalLinks := "" }).toasts = [] ∧
    personalProjectSchema { vPoster with externalLinks := some "" } =
      personalProjectSchema vPoster :=
  C2_amended_links_validation gwAllOk
    { name := "n", field := "f", externalLinks := "" } vPoster (some "") rfl

/-- C6: splitting the raw `externalLinks` text on commas, trimming each
token and discarding empty tokens yields the ordered candidate-URL
sequence — on "https://a.com, , https://b.com," exactly
["https://a.com", "https://b.com"] — and on the authorized path the run
issues exactly one `createLink` call per candidate, in that order. -/
theorem C6_comma_split_candidates :
    candidateUrls "https://a.com, , https://b.com," = ["https://a.com", "https://b.com"] ∧
    ∀ (gw : Gateways) (uid : String) (v : ExternalReferenceFormValues),
      gw.createProjectOk = true → gw.session = some uid →
      createLinkCalls (onSubmitExternal gw v).calls =
        (candidateUrls v.externalLinks).map
          (fun url => GatewayCall.createLink url v.name uid) :=
  ⟨by decide, fun gw uid v hp hs => external_createLink_trace gw uid v hp hs⟩

/-- Witness for C6 at the blank-token example input. -/
theorem C6_comma_split_candidates_witness :
    createLinkCalls (onSubmitExternal gwAllOk vAB).calls =
      (candidateUrls vAB.externalLinks).map
        (fun url => GatewayCall.createLink url vAB.name "user-1") :=
  C6_comma_split_candidates.2 gwAllOk "user-1" vAB rfl rfl

/-- C8: whenever `name` or `field` is empty, the schema of either variant
reports a field error and the submission pipeline stops before any gateway
call or toast — fail fast with zero side effects. -/
theorem C8_empty_name_or_field_fail_fast (gw : Gateways)
    (vp : PersonalProjectFormValues) (ve : ExternalReferenceFormValues)
    (hp : vp.name = "" ∨ vp.field = "") (he : ve.name = "" ∨ ve.field = "") :
    (personalProjectSchema vp).isEmpty = false ∧
    (submitPersonal gw vp).calls = [] ∧
    (submitPersonal gw vp).toasts = [] ∧
    (externalReferenceSchema ve).isEmpty = false ∧
    (submitExternal gw ve).calls = [] ∧
    (submitExternal gw ve).toasts = [] := by
  have h1 : (personalProjectSchema vp).isEmpty = false := by
    apply isEmpty_false_of_ne_nil
    rcases hp with h | h
    · have hl : vp.name.length = 0 := by rw [h]; rfl
      simp [personalProjectSchema, hl]
    · have hl : vp.field.length = 0 := by rw [h]; rfl
      simp [personalProjectSchema, hl]
  have h2 : (externalReferenceSchema ve).isEmpty = false := by
    apply isEmpty_false_of_ne_nil
    rcases he with h | h
    · have hl : ve.name.length = 0 := by rw [h]; rfl
      simp [externalReferenceSchema, hl]
    · have hl : ve.field.length = 0 := by rw [h]; rfl
      simp [externalReferenceSchema, hl]
  refine ⟨h1, ?_, ?_, h2, ?_, ?_⟩
  · unfold submitPersonal
    simp [h1]
  · unfold submitPersonal
    simp [h1]
  · unfold submitExternal
    simp [h2]
  · unfold submitExternal
    simp [h2]

/-- Witness for C8 at concrete empty-name inputs for both variants. -/
theorem C8_empty_name_or_field_fail_fast_witness :
    (personalProjectSchema { name := "", field := "Print" }).isEmpty = false ∧
    (submitPersonal gwAllOk { name := "", field := "Print" }).calls = [] ∧
    (submitPersonal gwAllOk { name := "", field := "Print" }).toasts = [] ∧
    (externalReferenceSchema
      { name := "", field := "Typography", externalLinks := "https://a.com" }).isEmpty = false ∧
    (submitExternal gwAllOk
      { name := "", field := "Typography", externalLinks := "https://a.com" }).calls = [] ∧
    (submitExternal gwAllOk
      { name := "", field := "Typography", externalLinks := "https://a.com" }).toasts = [] :=
  C8_empty_name_or_field_fail_fast gwAllOk { name := "", field := "Print" }
    { name := "", field := "Typography", externalLinks := "https://a.com" }
    (Or.inl rfl) (Or.inl rfl)

/-- C10: the minimum-length-1 checks count whitespace, so any non-empty
`name` and `field` — in particular whitespace-only values — pass validation
in both variants and the submission proceeds to `createProject` with that
name unchanged. -/
theorem C10_whitespace_passes_validation (gw : Gateways) (s t : String)
    (hs : 1 ≤ s.length) (ht : 1 ≤ t.length) :
    personalProjectSchema { name := s, field := t } = [] ∧
    (submitPersonal gw { name := s, field := t }).calls =
      [GatewayCall.createProject s (jsTrim (personalDescription { name := s, field := t }))] ∧
    externalReferenceSchema { name := s, field := t, externalLinks := t } = [] ∧
    (submitExternal gw { name := s, field := t, externalLinks := t }).calls.head? =
      some (GatewayCall.createProject s
        (jsTrim (externalDescription { name := s, field := t, externalLinks := t }))) := by
  have h1 : personalProjectSchema { name := s, field := t } = [] := by
    simp [personalProjectSchema, yearErrors, hs, ht]
  have h3 : externalReferenceSchema { name := s, field := t, externalLinks := t } = [] := by
    simp [externalReferenceSchema, yearErrors, hs, ht]
  refine ⟨h1, ?_, h3, ?_⟩
  · unfold submitPersonal onSubmitPersonal
    by_cases hc : gw.createProjectOk = true <;> simp [h1, hc]
  · unfold submitExternal
    simp only [h3, List.isEmpty_nil, if_true]
    exact onSubmitExternal_head gw _

/-- Witness for C10 at single-space name and field values. -/
theorem C10_whitespace_passes_validation_witness :
    personalProjectSchema { name := " ", field := " " } = [] ∧
    (submitPersonal gwAllOk { name := " ", field := " " }).calls =
      [GatewayCall.createProject " "
        (jsTrim (personalDescription { name := " ", field := " " }))] ∧
    externalReferenceSchema { name := " ", field := " ", externalLinks := " " } = [] ∧
    (submitExternal gwAllOk { name := " ", field := " ", externalLinks := " " }).calls.head? =
      some (GatewayCall.createProject " "
        (jsTrim (externalDescription { name := " ", field := " ", externalLinks := " " }))) :=
  C10_whitespace_passes_validation gwAllOk " " " " (by decide) (by decide)

end FontBloom
